import Mathlib

/-!
Verification of the RTOS kernel core in `p2/os.c` and `p2/kernel.h`
(course project RTOS for an 8-bit AVR target).

The kernel state is embedded shallowly: the global variables of `os.c`
become fields of `KernelState`, the static TCB array `Process[MAXTHREAD]`
becomes a function `Nat → PD`, pointers into the array become indices,
function pointers and code addresses become natural numbers, and the
C `unsigned int` / `int` arithmetic is modelled on `Nat` / `Int` with
explicit `% 2 ^ 32` where the source can wrap.

The context-switch assembly (`Enter_Kernel` / `Exit_Kernel` in
`cswitch.c`, not part of the sources) is not modelled: a kernel-loop
iteration is modelled as the state transformation performed by the body
of `Next_Kernel_Request` between two `Exit_Kernel` calls.
-/

namespace OS

/-- Modelled from the spec: `MAXTHREAD` is defined in `os.h`, which is not
among the sources; spec section 8 fixes the literal configuration
`MAXTHREAD = 16`. -/
def MAXTHREAD : Nat := 16

/-- Modelled from the spec: `WORKSPACE` is defined in `os.h`, which is not
among the sources; spec section 8 fixes the literal configuration
`WORKSPACE = 256`. -/
def WORKSPACE : Nat := 256

/-- `enum process_states` from `kernel.h`. -/
inductive PROCESS_STATES
  | DEAD
  | READY
  | RUNNING
  | SUSPENDED
  | SLEEPING
deriving DecidableEq, Repr

open PROCESS_STATES

/-- `enum error_codes` from `kernel.h`. -/
inductive ERROR_TYPE
  | NO_ERR
  | INVALID_KERNET_REQUEST_ERR
  | KERNEL_INACTIVE_ERR
  | MAX_PROCESS_ERR
  | PID_NOT_FOUND_ERR
  | SUSPEND_NONRUNNING_TASK_ERR
  | RESUME_NONSUSPENDED_TASK_ERR
deriving DecidableEq, Repr

open ERROR_TYPE

/-- `enum kernel_request_type` from `kernel.h`.  The field holding a value
of this enum is modelled as a `Nat` carrying the C integer value of the
enumerator, so that the `default` branch of the `switch` in
`Next_Kernel_Request` (reachable in C when the field holds a non-enum
integer) is representable.  `NONE = 0`. -/
def NONE : Nat := 0

/-- `CREATE = 1` in `enum kernel_request_type`. -/
def CREATE : Nat := 1

/-- `YIELD = 2` in `enum kernel_request_type`. -/
def YIELD : Nat := 2

/-- `TERMINATE = 3` in `enum kernel_request_type`. -/
def TERMINATE : Nat := 3

/-- `SUSPEND = 4` in `enum kernel_request_type`. -/
def SUSPEND : Nat := 4

/-- `RESUME = 5` in `enum kernel_request_type`. -/
def RESUME : Nat := 5

/-- `SLEEP = 6` in `enum kernel_request_type`. -/
def SLEEP : Nat := 6

/-- Value of a C `unsigned int` obtained from an `int` (conversion modulo
`2 ^ 32`). -/
def uint32 (x : Int) : Nat := (x % (2 ^ 32 : Int)).toNat

/-- Value of a C `int` obtained from an `unsigned int` (two's-complement
reading of the low 32 bits). -/
def int32 (n : Nat) : Int :=
  if n % 2 ^ 32 < 2 ^ 31 then Int.ofNat (n % 2 ^ 32)
  else Int.ofNat (n % 2 ^ 32) - 2 ^ 32

/-- `struct ProcessDescriptor` (`PD`) from `kernel.h`.  `pid` and `pri`
are C `unsigned int`s (`PID`, `PRIORITY` from `os.h`), `request_arg` and
`arg` are C `int`s, `sp` is a pointer into the slot's own `workSpace`
modelled as a byte offset, `workSpace` maps a byte offset to the byte
stored there, and `code` is the task's entry-point address. -/
structure PD where
  pid : Nat
  pri : Nat
  state : PROCESS_STATES
  request : Nat
  request_arg : Int
  arg : Int
  sp : Nat
  workSpace : Nat → Nat
  code : Nat

/-- The kernel's global variables from `os.c`: the TCB table `Process`,
the current-process pointer `Cp` (modelled as an index), `CurrentSp`,
the rotation cursor `NextP`, `KernelActive`, the creation counter
`Tasks`, `last_PID` and the sticky error cell `err`. -/
structure KernelState where
  Process : Nat → PD
  Cp : Nat
  CurrentSp : Nat
  NextP : Nat
  KernelActive : Bool
  Tasks : Nat
  last_PID : Nat
  err : ERROR_TYPE

/-- Write one TCB slot of the table, leaving the rest of the state
unchanged. -/
def updProc (s : KernelState) (i : Nat) (p : PD) : KernelState :=
  { s with Process := fun j => if j = i then p else s.Process j }

/-- Linear scan shared by `findProcessByPID`, `findPIDByFuncPtr` and the
DEAD-slot search of `Kernel_Create_Task`: first index `i`, counting up
from the start index, with `pred i` true, trying `fuel` indices. -/
def scanFirst (pred : Nat → Bool) : Nat → Nat → Option Nat
  | _, 0 => none
  | i, n + 1 => if pred i then some i else scanFirst pred (i + 1) n

/-- `findProcessByPID` from `os.c`: linear scan of `Process[0..MAXTHREAD)`
for the first slot whose `pid` equals the argument; the C comparison is
between an `unsigned int` field and an `int` argument, so both sides are
compared as 32-bit unsigned values.  Returns the slot index (the C code
returns `&Process[i]`) or `none` (the C code returns `NULL`). -/
def findProcessByPID (s : KernelState) (pid : Int) : Option Nat :=
  scanFirst (fun i => (s.Process i).pid % 2 ^ 32 == uint32 pid) 0 MAXTHREAD

/-- `findPIDByFuncPtr` from `os.c`: linear scan for the first slot whose
`code` equals `f`; returns that slot's `pid` (as a C `int`), else `-1`. -/
def findPIDByFuncPtr (s : KernelState) (f : Nat) : Int :=
  match scanFirst (fun i => (s.Process i).code == f) 0 MAXTHREAD with
  | some i => int32 (s.Process i).pid
  | none => -1

/-- Body of the `ISR(TIMER1_COMPA_vect)` loop in `os.c` for one slot:
a SLEEPING slot has `request_arg` pre-decremented and is made READY when
the decremented value is `<= 0`; any other slot is untouched. -/
def tickSlot (p : PD) : PD :=
  if p.state = SLEEPING then
    if p.request_arg - 1 ≤ 0 then
      { p with request_arg := p.request_arg - 1, state := READY }
    else
      { p with request_arg := p.request_arg - 1 }
  else p

/-- `ISR(TIMER1_COMPA_vect)` from `os.c`: applies `tickSlot` to every slot
`i < MAXTHREAD`. -/
def tickISR (s : KernelState) : KernelState :=
  { s with Process := fun i => if i < MAXTHREAD then tickSlot (s.Process i) else s.Process i }

/-- The `while (Process[NextP].state != READY)` search of `Dispatch` in
`os.c`: starting at index `j`, step `j := (j + 1) % MAXTHREAD` until a
READY slot is found.  The C loop spins forever (with interrupts briefly
re-enabled) when no slot is READY; that is modelled by `none` once every
slot has been visited. -/
def dispatchSearch (s : KernelState) : Nat → Nat → Option Nat
  | _, 0 => none
  | j, n + 1 =>
    if (s.Process j).state = READY then some j
    else dispatchSearch s ((j + 1) % MAXTHREAD) n

/-- `Dispatch` from `os.c`: find the next READY slot starting at `NextP`,
load it into `Cp`, copy its `sp` into `CurrentSp`, mark it RUNNING and
advance `NextP` one past the chosen slot. -/
def Dispatch (s : KernelState) : Option KernelState :=
  match dispatchSearch s s.NextP MAXTHREAD with
  | none => none
  | some k =>
    some { (updProc s k { s.Process k with state := RUNNING }) with
           Cp := k, CurrentSp := (s.Process k).sp, NextP := (k + 1) % MAXTHREAD }

/-- One byte store `*sp = v` into a workspace. -/
def wsWrite (ws : Nat → Nat) (a v : Nat) : Nat → Nat :=
  fun b => if b = a then v else ws b

/-- The `DEBUG` register-area fill of `Kernel_Create_Task` in `os.c`
(`DEBUG` is defined at the top of `os.c`): `n` iterations of
`*(unsigned char *)sp-- = counter;` with `counter` starting at the given
value.  Returns the workspace and the final `sp`. -/
def debugFill : (Nat → Nat) → Nat → Nat → Nat → (Nat → Nat) × Nat
  | ws, sp, _, 0 => (ws, sp)
  | ws, sp, counter, n + 1 => debugFill (wsWrite ws sp counter) (sp - 1) (counter + 1) n

/-- The workspace initialization of `Kernel_Create_Task` in `os.c`:
`memset` to zero, then from `sp = &workSpace[WORKSPACE-1]` downward the
three bytes of the `Task_Terminate` address (low byte, high byte, zero),
the three bytes of the entry point `f`, and the 34-byte `DEBUG` register
fill.  Returns the workspace contents and the final `sp` offset. -/
def createdWorkSpace (tt f : Nat) : (Nat → Nat) × Nat :=
  let ws0 : Nat → Nat := fun _ => 0
  let ws1 := wsWrite ws0 (WORKSPACE - 1) (tt % 256)
  let ws2 := wsWrite ws1 (WORKSPACE - 2) (tt / 256 % 256)
  let ws3 := wsWrite ws2 (WORKSPACE - 3) 0
  let ws4 := wsWrite ws3 (WORKSPACE - 4) (f % 256)
  let ws5 := wsWrite ws4 (WORKSPACE - 5) (f / 256 % 256)
  let ws6 := wsWrite ws5 (WORKSPACE - 6) 0
  debugFill ws6 (WORKSPACE - 7) 0 34

/-- The DEAD-slot search of `Kernel_Create_Task`:
`for (x = 0; x < MAXTHREAD; x++) if (Process[x].state == DEAD) break;`,
so `x = MAXTHREAD` when no slot is DEAD. -/
def firstDead (s : KernelState) : Nat :=
  match scanFirst (fun i => (s.Process i).state == DEAD) 0 MAXTHREAD with
  | some i => i
  | none => MAXTHREAD

/-- `Kernel_Create_Task` from `os.c`.  `tt` is the link-time address of
`Task_Terminate` (`(unsigned int)Task_Terminate` in the source), kept as
a parameter of the model.  Guard: `if (Tasks == MAXTHREAD)` set
`MAX_PROCESS_ERR` and return; otherwise find the first DEAD slot, bump
`Tasks`, build the synthetic stack and fill in the descriptor
(`pid = ++last_PID`, state READY, `request = NONE`; `request_arg` is not
assigned and keeps the slot's old value). -/
def Kernel_Create_Task (s : KernelState) (tt f py : Nat) (arg : Int) : KernelState :=
  if s.Tasks = MAXTHREAD then { s with err := MAX_PROCESS_ERR }
  else
    let x := firstDead s
    let ws := createdWorkSpace tt f
    let newPID := (s.last_PID + 1) % 2 ^ 32
    { s with
      Tasks := (s.Tasks + 1) % 2 ^ 32,
      last_PID := newPID,
      err := NO_ERR,
      Process := fun j =>
        if j = x then
          { pid := newPID, pri := py, state := READY, request := NONE,
            request_arg := (s.Process x).request_arg, arg := arg,
            sp := ws.2, workSpace := ws.1, code := f }
        else s.Process j }

/-- `Kernel_Suspend_Task` from `os.c`: look up `Cp->request_arg` by PID;
not found sets `PID_NOT_FOUND_ERR`, a target that is not READY sets
`SUSPEND_NONRUNNING_TASK_ERR`, otherwise the target becomes SUSPENDED and
`err = NO_ERR`. -/
def Kernel_Suspend_Task (s : KernelState) : KernelState :=
  match findProcessByPID s (s.Process s.Cp).request_arg with
  | none => { s with err := PID_NOT_FOUND_ERR }
  | some i =>
    if (s.Process i).state ≠ READY then { s with err := SUSPEND_NONRUNNING_TASK_ERR }
    else { (updProc s i { s.Process i with state := SUSPENDED }) with err := NO_ERR }

/-- `Kernel_Resume_Task` from `os.c`: look up `Cp->request_arg` by PID;
not found sets `PID_NOT_FOUND_ERR`, a target that is not SUSPENDED sets
`RESUME_NONSUSPENDED_TASK_ERR`, otherwise the target becomes READY and
`err = NO_ERR`. -/
def Kernel_Resume_Task (s : KernelState) : KernelState :=
  match findProcessByPID s (s.Process s.Cp).request_arg with
  | none => { s with err := PID_NOT_FOUND_ERR }
  | some i =>
    if (s.Process i).state ≠ SUSPENDED then { s with err := RESUME_NONSUSPENDED_TASK_ERR }
    else { (updProc s i { s.Process i with state := READY }) with err := NO_ERR }

/-- The `switch (Cp->request)` of `Next_Kernel_Request` in `os.c`: the
state transformation performed on one request.  `tt` is the address of
`Task_Terminate` passed through to task creation.  Branches that call
`Dispatch` return `none` when no slot is READY (the C dispatcher would
spin waiting for the tick interrupt). -/
def Next_Request_Step (tt : Nat) (s : KernelState) : Option KernelState :=
  let cp := s.Process s.Cp
  if cp.request = CREATE then some (Kernel_Create_Task s tt cp.code cp.pri cp.arg)
  else if cp.request = TERMINATE then Dispatch (updProc s s.Cp { cp with state := DEAD })
  else if cp.request = SUSPEND then some (Kernel_Suspend_Task s)
  else if cp.request = RESUME then some (Kernel_Resume_Task s)
  else if cp.request = SLEEP then Dispatch (updProc s s.Cp { cp with state := SLEEPING })
  else if cp.request = YIELD ∨ cp.request = NONE then Dispatch (updProc s s.Cp { cp with state := READY })
  else some { s with err := INVALID_KERNET_REQUEST_ERR }

/-- `Cp->sp = CurrentSp;` — the stack-pointer save performed by
`Next_Kernel_Request` right after the kernel is re-entered. -/
def kernelEntrySave (s : KernelState) : KernelState :=
  updProc s s.Cp { s.Process s.Cp with sp := s.CurrentSp }

/-- The top of the `Next_Kernel_Request` loop before `Exit_Kernel`:
`Cp->request = NONE;` (`request_arg` is deliberately not reset) and
`CurrentSp = Cp->sp;`. -/
def loopPrologue (s : KernelState) : KernelState :=
  { (updProc s s.Cp { s.Process s.Cp with request := NONE }) with
    CurrentSp := (s.Process s.Cp).sp }

/-- The request-filling half of `Task_Create` in `os.c` when
`KernelActive`: the caller's own TCB fields `pri`, `arg`, `request` and
`code` are overwritten with the arguments of the call. -/
def Task_Create_fill (s : KernelState) (f py : Nat) (arg : Int) : KernelState :=
  updProc s s.Cp
    { s.Process s.Cp with pri := py, arg := arg, request := CREATE, code := f }

/-- A full `Task_Create` call as seen by the caller: when `KernelActive`,
fill the request into the caller's TCB, enter the kernel (which saves the
stack pointer, runs the CREATE branch of the switch and, since that
branch does not dispatch, resumes the same caller after the loop
prologue); when the kernel is not active, create the task directly. -/
def Task_Create_syscall (tt : Nat) (s : KernelState) (f py : Nat) (arg : Int) :
    Option KernelState :=
  if s.KernelActive then
    (Next_Request_Step tt (kernelEntrySave (Task_Create_fill s f py arg))).map loopPrologue
  else some (Kernel_Create_Task s tt f py arg)

/-- The PID returned by `Task_Create` in `os.c` after the kernel has
processed the request: `0` when `err == MAX_PROCESS_ERR`, else the
global `last_PID`. -/
def Task_Create_return (s : KernelState) : Nat :=
  if s.err = MAX_PROCESS_ERR then 0 else s.last_PID

/-- The request-filling half of `Task_Suspend` in `os.c`: when
`KernelActive`, store `SUSPEND` and the target PID into the caller's TCB;
otherwise set `KERNEL_INACTIVE_ERR`. -/
def Task_Suspend_fill (s : KernelState) (p : Nat) : KernelState :=
  if s.KernelActive then
    updProc s s.Cp
      { s.Process s.Cp with request := SUSPEND, request_arg := int32 p }
  else { s with err := KERNEL_INACTIVE_ERR }

/-- `OS_Init` from `os.c`: `Tasks = 0`, `KernelActive = 0`, `NextP = 0`,
and every slot `memset` to zero with state DEAD.  `Cp`, `last_PID` and
`err` are not touched by `OS_Init`. -/
def initPD : PD :=
  { pid := 0, pri := 0, state := DEAD, request := 0, request_arg := 0,
    arg := 0, sp := 0, workSpace := fun _ => 0, code := 0 }

/-- `OS_Init` from `os.c` (see `initPD` for the zeroed slot). -/
def OS_Init (s : KernelState) : KernelState :=
  { s with
    Tasks := 0,
    KernelActive := false,
    NextP := 0,
    Process := fun i => if i < MAXTHREAD then initPD else s.Process i }

/-- The C globals at program start (static storage is zero-initialized;
`Cp` is a null pointer, modelled as index 0 before first assignment). -/
def bootState : KernelState :=
  { Process := fun _ => initPD, Cp := 0, CurrentSp := 0, NextP := 0,
    KernelActive := false, Tasks := 0, last_PID := 0, err := NO_ERR }

/-- Count of TCB slots whose state is not DEAD — the measure named by the
spec invariant `Tasks = #\x7b s | s.state ≠ DEAD \x7d`. -/
def nonDeadCount (s : KernelState) : Nat :=
  Finset.sum (Finset.range MAXTHREAD) fun i => if (s.Process i).state = DEAD then 0 else 1

/-- Replace every slot's stored priority according to `g`; used to state
that the scheduler never consults the priority field. -/
def mapPri (g : Nat → Nat) (s : KernelState) : KernelState :=
  { s with Process := fun i => { s.Process i with pri := g i } }

/-- The round-robin choice the spec describes: `k` is the first READY
slot at or cyclically after `NextP`. -/
def DispatchChoice (s : KernelState) (k : Nat) : Prop :=
  ∃ d, d < MAXTHREAD ∧ k = (s.NextP + d) % MAXTHREAD ∧
    (s.Process k).state = READY ∧
    ∀ e, e < d → (s.Process ((s.NextP + e) % MAXTHREAD)).state ≠ READY

/-- What a successful `Dispatch` does, per the spec: select the first
READY slot at or cyclically after `NextP`, point `Cp` at it, copy its
`sp` into `CurrentSp`, mark it RUNNING, leave every other slot alone and
advance `NextP` one past the chosen slot. -/
def DispatchSpec (s t : KernelState) : Prop :=
  DispatchChoice s t.Cp ∧
  t.CurrentSp = (s.Process t.Cp).sp ∧
  t.Process t.Cp = { s.Process t.Cp with state := RUNNING } ∧
  (∀ j, j ≠ t.Cp → t.Process j = s.Process j) ∧
  t.NextP = (t.Cp + 1) % MAXTHREAD

/-- The spec invariant: exactly one slot is RUNNING and `Cp` points at
it. -/
def ExactlyOneRunning (s : KernelState) : Prop :=
  s.Cp < MAXTHREAD ∧ (s.Process s.Cp).state = RUNNING ∧
  ∀ i, i < MAXTHREAD → (s.Process i).state = RUNNING → i = s.Cp

/-- A TCB with the given pid, state and pending request; used to build
concrete kernel states for counterexamples and witnesses. -/
def pdWith (pid : Nat) (st : PROCESS_STATES) (req : Nat) : PD :=
  { pid := pid, pri := 0, state := st, request := req, request_arg := 0,
    arg := 0, sp := 0, workSpace := fun _ => 0, code := 0 }

/-- Concrete state: task 1 (slot 0) is RUNNING and has requested
TERMINATE, task 2 (slot 1) is READY, both counted in `Tasks = 2`. -/
def exTermState : KernelState :=
  { Process := fun i =>
      if i = 0 then pdWith 1 RUNNING TERMINATE
      else if i = 1 then pdWith 2 READY 0
      else initPD,
    Cp := 0, CurrentSp := 0, NextP := 1, KernelActive := true,
    Tasks := 2, last_PID := 2, err := NO_ERR }

/-- Concrete state: `Tasks` has reached `MAXTHREAD` (16 creations since
boot) but slot 0 is DEAD again after a termination. -/
def exFullState : KernelState :=
  { Process := fun i => if i = 0 then pdWith 1 DEAD 0 else pdWith (i + 1) READY 0,
    Cp := 2, CurrentSp := 0, NextP := 0, KernelActive := true,
    Tasks := 16, last_PID := 16, err := NO_ERR }

/-- Concrete state: task 1 (slot 0) is RUNNING with a pending SUSPEND
request targeting pid 2; task 2 (slot 1) is READY. -/
def exSuspendState : KernelState :=
  { Process := fun i =>
      if i = 0 then { pdWith 1 RUNNING SUSPEND with request_arg := 2 }
      else if i = 1 then pdWith 2 READY 0
      else initPD,
    Cp := 0, CurrentSp := 0, NextP := 1, KernelActive := true,
    Tasks := 2, last_PID := 2, err := NO_ERR }

/-- Concrete state: task 1 (slot 0) is SLEEPING with one remaining tick. -/
def exSleepState : KernelState :=
  { Process := fun i =>
      if i = 0 then { pdWith 1 SLEEPING 0 with request_arg := 1 }
      else initPD,
    Cp := 0, CurrentSp := 0, NextP := 0, KernelActive := true,
    Tasks := 1, last_PID := 1, err := NO_ERR }

/-- Concrete state: task 1 (slot 0) is RUNNING with entry point address
100; every other slot is free. -/
def exCreateState : KernelState :=
  { Process := fun i => if i = 0 then { pdWith 1 RUNNING 0 with code := 100 } else initPD,
    Cp := 0, CurrentSp := 0, NextP := 0, KernelActive := true,
    Tasks := 1, last_PID := 1, err := NO_ERR }

/-- Concrete state: the kernel has been started right after `OS_Init`, so
every slot is DEAD and still carries pid 0. -/
def exPidZeroState : KernelState :=
  { OS_Init bootState with KernelActive := true }

/-! ## Helper lemmas -/

theorem updProc_self (s : KernelState) (i : Nat) (p : PD) : (updProc s i p).Process i = p := by
  simp [updProc]

theorem updProc_other (s : KernelState) (i j : Nat) (p : PD) (h : j ≠ i) :
    (updProc s i p).Process j = s.Process j := by
  simp [updProc, h]

theorem scanFirst_some_spec (pred : Nat → Bool) :
    ∀ fuel j i, scanFirst pred j fuel = some i →
      j ≤ i ∧ i < j + fuel ∧ pred i = true ∧ ∀ e, j ≤ e → e < i → pred e = false := by
  intro fuel
  induction fuel with
  | zero => intro j i h; simp [scanFirst] at h
  | succ n ih =>
    intro j i h
    by_cases hp : pred j = true
    · rw [scanFirst, if_pos hp] at h
      cases h
      exact ⟨Nat.le_refl _, by omega, hp, fun e he1 he2 => absurd he2 (by omega)⟩
    · rw [scanFirst, if_neg hp] at h
      obtain ⟨h1, h2, h3, h4⟩ := ih (j + 1) i h
      have hp2 : pred j = false := by simpa using hp
      refine ⟨by omega, by omega, h3, ?_⟩
      intro e he1 he2
      rcases Nat.lt_or_ge e (j + 1) with hlt | hge
      · have he : e = j := by omega
        rw [he]; exact hp2
      · exact h4 e hge he2

theorem scanFirst_none_spec (pred : Nat → Bool) :
    ∀ fuel j, scanFirst pred j fuel = none →
      ∀ e, j ≤ e → e < j + fuel → pred e = false := by
  intro fuel
  induction fuel with
  | zero => intro j h e he1 he2; exact absurd he2 (by omega)
  | succ n ih =>
    intro j h e he1 he2
    by_cases hp : pred j = true
    · rw [scanFirst, if_pos hp] at h; cases h
    · rw [scanFirst, if_neg hp] at h
      rcases Nat.lt_or_ge e (j + 1) with hlt | hge
      · have he : e = j := by omega
        rw [he]; simpa using hp
      · exact ih (j + 1) h e hge (by omega)

theorem scanFirst_congr (p q : Nat → Bool) (hpq : ∀ e, p e = q e) :
    ∀ fuel j, scanFirst p j fuel = scanFirst q j fuel := by
  intro fuel
  induction fuel with
  | zero => intro j; rfl
  | succ n ih => intro j; rw [scanFirst, scanFirst, hpq j, ih]

theorem findProcessByPID_congr (s t : KernelState) (x : Int)
    (h : ∀ j, (t.Process j).pid = (s.Process j).pid) :
    findProcessByPID t x = findProcessByPID s x := by
  unfold findProcessByPID
  exact scanFirst_congr _ _ (fun e => by rw [h e]) MAXTHREAD 0

theorem findProcessByPID_mem (s : KernelState) (x : Int) (i : Nat)
    (h : findProcessByPID s x = some i) :
    i < MAXTHREAD ∧ (s.Process i).pid % 2 ^ 32 = uint32 x := by
  obtain ⟨_, h2, h3, _⟩ := scanFirst_some_spec _ MAXTHREAD 0 i h
  exact ⟨by omega, by simpa using h3⟩

theorem firstDead_eq_of_scan (s : KernelState) (y : Nat)
    (hscan : scanFirst (fun i => (s.Process i).state == DEAD) 0 MAXTHREAD = some y) :
    firstDead s = y := by
  unfold firstDead
  rw [hscan]

theorem firstDead_eq_of_scan_none (s : KernelState)
    (hscan : scanFirst (fun i => (s.Process i).state == DEAD) 0 MAXTHREAD = none) :
    firstDead s = MAXTHREAD := by
  unfold firstDead
  rw [hscan]

theorem firstDead_state (s : KernelState) (hxM : firstDead s < MAXTHREAD) :
    (s.Process (firstDead s)).state = DEAD ∧
    ∀ e, e < firstDead s → (s.Process e).state ≠ DEAD := by
  cases hscan : scanFirst (fun i => (s.Process i).state == DEAD) 0 MAXTHREAD with
  | none =>
    have := firstDead_eq_of_scan_none s hscan
    omega
  | some y =>
    have he := firstDead_eq_of_scan s y hscan
    obtain ⟨_, _, h3, h4⟩ := scanFirst_some_spec _ MAXTHREAD 0 y hscan
    rw [he]
    exact ⟨by simpa using h3, fun e hey => by simpa using h4 e (Nat.zero_le e) hey⟩

theorem firstDead_le (s : KernelState) (i : Nat) (hi : i < MAXTHREAD)
    (hd : (s.Process i).state = DEAD) : firstDead s ≤ i ∧ firstDead s < MAXTHREAD := by
  cases hscan : scanFirst (fun i => (s.Process i).state == DEAD) 0 MAXTHREAD with
  | none =>
    have := scanFirst_none_spec _ MAXTHREAD 0 hscan i (Nat.zero_le i) (by omega)
    simp [hd] at this
  | some y =>
    have he := firstDead_eq_of_scan s y hscan
    obtain ⟨_, h2, _, h4⟩ := scanFirst_some_spec _ MAXTHREAD 0 y hscan
    rw [he]
    constructor
    · by_contra hyi
      have := h4 i (Nat.zero_le i) (by omega)
      simp [hd] at this
    · omega

theorem Kernel_Create_Task_full (s : KernelState) (tt f py : Nat) (arg : Int)
    (hT : s.Tasks = MAXTHREAD) :
    Kernel_Create_Task s tt f py arg = { s with err := MAX_PROCESS_ERR } := by
  unfold Kernel_Create_Task
  rw [if_pos hT]

theorem Kernel_Create_Task_frame (s : KernelState) (tt f py : Nat) (arg : Int)
    (hT : s.Tasks ≠ MAXTHREAD) (j : Nat) (hj : j ≠ firstDead s) :
    (Kernel_Create_Task s tt f py arg).Process j = s.Process j := by
  unfold Kernel_Create_Task
  rw [if_neg hT]
  exact if_neg hj

theorem Kernel_Create_Task_newSlot (s : KernelState) (tt f py : Nat) (arg : Int)
    (hT : s.Tasks ≠ MAXTHREAD) :
    (Kernel_Create_Task s tt f py arg).Process (firstDead s) =
      { pid := (s.last_PID + 1) % 2 ^ 32, pri := py, state := READY, request := NONE,
        request_arg := (s.Process (firstDead s)).request_arg, arg := arg,
        sp := (createdWorkSpace tt f).2, workSpace := (createdWorkSpace tt f).1,
        code := f } := by
  unfold Kernel_Create_Task
  rw [if_neg hT]
  exact if_pos rfl

theorem Kernel_Create_Task_globals (s : KernelState) (tt f py : Nat) (arg : Int)
    (hT : s.Tasks ≠ MAXTHREAD) :
    (Kernel_Create_Task s tt f py arg).Cp = s.Cp ∧
    (Kernel_Create_Task s tt f py arg).Tasks = (s.Tasks + 1) % 2 ^ 32 ∧
    (Kernel_Create_Task s tt f py arg).last_PID = (s.last_PID + 1) % 2 ^ 32 ∧
    (Kernel_Create_Task s tt f py arg).err = NO_ERR ∧
    (Kernel_Create_Task s tt f py arg).NextP = s.NextP ∧
    (Kernel_Create_Task s tt f py arg).KernelActive = s.KernelActive ∧
    (Kernel_Create_Task s tt f py arg).CurrentSp = s.CurrentSp := by
  unfold Kernel_Create_Task
  rw [if_neg hT]
  exact ⟨rfl, rfl, rfl, rfl, rfl, rfl, rfl⟩

theorem dispatchSearch_some_spec (s : KernelState) :
    ∀ fuel j k, j < MAXTHREAD → dispatchSearch s j fuel = some k →
      ∃ d, d < fuel ∧ k = (j + d) % MAXTHREAD ∧ (s.Process k).state = READY ∧
        ∀ e, e < d → (s.Process ((j + e) % MAXTHREAD)).state ≠ READY := by
  intro fuel
  induction fuel with
  | zero => intro j k hj h; simp [dispatchSearch] at h
  | succ n ih =>
    intro j k hj h
    by_cases hr : (s.Process j).state = READY
    · rw [dispatchSearch, if_pos hr] at h
      cases h
      exact ⟨0, by omega, by rw [Nat.add_zero, Nat.mod_eq_of_lt hj], hr,
             fun e he => absurd he (by omega)⟩
    · rw [dispatchSearch, if_neg hr] at h
      obtain ⟨d, hd1, hd2, hd3, hd4⟩ :=
        ih ((j + 1) % MAXTHREAD) k (Nat.mod_lt _ (by decide)) h
      refine ⟨d + 1, by omega, ?_, hd3, ?_⟩
      · rw [hd2, Nat.mod_add_mod]
        congr 1
        omega
      · intro e he
        cases e with
        | zero => rw [Nat.add_zero, Nat.mod_eq_of_lt hj]; exact hr
        | succ e2 =>
          have heq : (j + (e2 + 1)) % MAXTHREAD = ((j + 1) % MAXTHREAD + e2) % MAXTHREAD := by
            rw [Nat.mod_add_mod]
            congr 1
            omega
          rw [heq]
          exact hd4 e2 (by omega)

theorem dispatchSearch_exists (s : KernelState) :
    ∀ fuel j, j < MAXTHREAD →
      (∃ d, d < fuel ∧ (s.Process ((j + d) % MAXTHREAD)).state = READY) →
      ∃ k, dispatchSearch s j fuel = some k := by
  intro fuel
  induction fuel with
  | zero =>
    intro j hj h
    obtain ⟨d, hd, _⟩ := h
    exact absurd hd (by omega)
  | succ n ih =>
    intro j hj h
    obtain ⟨d, hd, hready⟩ := h
    by_cases hr : (s.Process j).state = READY
    · exact ⟨j, by rw [dispatchSearch, if_pos hr]⟩
    · rw [dispatchSearch, if_neg hr]
      apply ih ((j + 1) % MAXTHREAD) (Nat.mod_lt _ (by decide))
      cases d with
      | zero =>
        rw [Nat.add_zero, Nat.mod_eq_of_lt hj] at hready
        exact absurd hready hr
      | succ d2 =>
        refine ⟨d2, by omega, ?_⟩
        rwa [Nat.mod_add_mod, show j + 1 + d2 = j + (d2 + 1) by omega]

theorem Dispatch_some_spec (s t : KernelState) (hN : s.NextP < MAXTHREAD)
    (h : Dispatch s = some t) :
    DispatchSpec s t ∧ t.Cp < MAXTHREAD ∧
    t.Tasks = s.Tasks ∧ t.last_PID = s.last_PID ∧ t.err = s.err ∧
    t.KernelActive = s.KernelActive := by
  unfold Dispatch at h
  cases hd : dispatchSearch s s.NextP MAXTHREAD with
  | none => rw [hd] at h; cases h
  | some k =>
    rw [hd] at h
    obtain ⟨d, hd1, hd2, hd3, hd4⟩ := dispatchSearch_some_spec s MAXTHREAD s.NextP k hN hd
    have hkM : k < MAXTHREAD := by rw [hd2]; exact Nat.mod_lt _ (by decide)
    cases h
    refine ⟨⟨⟨d, hd1, hd2, hd3, hd4⟩, rfl, ?_, ?_, rfl⟩, hkM, rfl, rfl, rfl, rfl⟩
    · exact updProc_self s k _
    · intro j hj
      exact updProc_other s k j _ hj

theorem Dispatch_exists (s : KernelState) (hN : s.NextP < MAXTHREAD)
    (h : ∃ i, i < MAXTHREAD ∧ (s.Process i).state = READY) :
    ∃ t, Dispatch s = some t := by
  obtain ⟨i, hi, hready⟩ := h
  have harith : (s.NextP + (i + MAXTHREAD - s.NextP) % MAXTHREAD) % MAXTHREAD = i := by
    rw [Nat.add_mod_mod, show s.NextP + (i + MAXTHREAD - s.NextP) = i + MAXTHREAD by omega,
        Nat.add_mod_right, Nat.mod_eq_of_lt hi]
  obtain ⟨k, hk⟩ := dispatchSearch_exists s MAXTHREAD s.NextP hN
    ⟨(i + MAXTHREAD - s.NextP) % MAXTHREAD, Nat.mod_lt _ (by decide),
     by rw [harith]; exact hready⟩
  unfold Dispatch
  rw [hk]
  exact ⟨_, rfl⟩

theorem nonDeadCount_congr (s t : KernelState)
    (h : ∀ i, i < MAXTHREAD → ((t.Process i).state = DEAD ↔ (s.Process i).state = DEAD)) :
    nonDeadCount t = nonDeadCount s := by
  unfold nonDeadCount
  apply Finset.sum_congr rfl
  intro i hi
  rw [Finset.mem_range] at hi
  by_cases hd : (s.Process i).state = DEAD
  · rw [if_pos hd, if_pos ((h i hi).mpr hd)]
  · rw [if_neg hd, if_neg (fun hh => hd ((h i hi).mp hh))]

theorem nonDeadCount_kill (s t : KernelState) (i : Nat) (hi : i < MAXTHREAD)
    (hothers : ∀ j, j < MAXTHREAD → j ≠ i →
      ((t.Process j).state = DEAD ↔ (s.Process j).state = DEAD))
    (hold : (s.Process i).state ≠ DEAD) (hnew : (t.Process i).state = DEAD) :
    nonDeadCount t + 1 = nonDeadCount s := by
  have hmem : i ∈ Finset.range MAXTHREAD := Finset.mem_range.mpr hi
  have ht := (Finset.sum_erase_add (Finset.range MAXTHREAD)
      (fun j => if (t.Process j).state = DEAD then 0 else 1) hmem).symm
  have hs := (Finset.sum_erase_add (Finset.range MAXTHREAD)
      (fun j => if (s.Process j).state = DEAD then 0 else 1) hmem).symm
  have hsum : Finset.sum ((Finset.range MAXTHREAD).erase i)
        (fun j => if (t.Process j).state = DEAD then 0 else 1)
      = Finset.sum ((Finset.range MAXTHREAD).erase i)
        (fun j => if (s.Process j).state = DEAD then 0 else 1) := by
    apply Finset.sum_congr rfl
    intro j hj
    have hj1 := (Finset.mem_erase.mp hj).1
    have hj2 := Finset.mem_range.mp (Finset.mem_erase.mp hj).2
    by_cases hd : (s.Process j).state = DEAD
    · rw [if_pos hd, if_pos ((hothers j hj2 hj1).mpr hd)]
    · rw [if_neg hd, if_neg (fun hh => hd ((hothers j hj2 hj1).mp hh))]
  unfold nonDeadCount
  rw [ht, hs, hsum, if_pos hnew, if_neg hold]

theorem debugFill_fst_high (a : Nat) :
    ∀ n ws sp c, sp < a → (debugFill ws sp c n).1 a = ws a := by
  intro n
  induction n with
  | zero => intro ws sp c h; rfl
  | succ m ih =>
    intro ws sp c h
    rw [debugFill, ih _ _ _ (by omega)]
    unfold wsWrite
    rw [if_neg (by omega)]

theorem debugFill_fst_read :
    ∀ n ws sp c k, k < n → n ≤ sp + 1 → (debugFill ws sp c n).1 (sp - k) = c + k := by
  intro n
  induction n with
  | zero => intro ws sp c k hk _; exact absurd hk (by omega)
  | succ m ih =>
    intro ws sp c k hk hsp
    rw [debugFill]
    cases k with
    | zero =>
      simp only [Nat.sub_zero, Nat.add_zero]
      cases m with
      | zero =>
        rw [debugFill]
        simp [wsWrite]
      | succ m2 =>
        rw [debugFill_fst_high sp (m2 + 1) _ _ _ (by omega)]
        simp [wsWrite]
    | succ k2 =>
      have hsub : sp - (k2 + 1) = sp - 1 - k2 := by omega
      rw [hsub, ih _ _ _ k2 (by omega) (by omega)]
      omega

theorem debugFill_snd : ∀ n ws sp c, (debugFill ws sp c n).2 = sp - n := by
  intro n
  induction n with
  | zero => intro ws sp c; simp [debugFill]
  | succ m ih =>
    intro ws sp c
    rw [debugFill, ih]
    omega

theorem createdWorkSpace_snd (tt f : Nat) : (createdWorkSpace tt f).2 = WORKSPACE - 41 := by
  unfold createdWorkSpace
  rw [debugFill_snd]
  decide

theorem createdWorkSpace_reads (tt f : Nat) :
    (createdWorkSpace tt f).1 (WORKSPACE - 1) = tt % 256 ∧
    (createdWorkSpace tt f).1 (WORKSPACE - 2) = tt / 256 % 256 ∧
    (createdWorkSpace tt f).1 (WORKSPACE - 3) = 0 ∧
    (createdWorkSpace tt f).1 (WORKSPACE - 4) = f % 256 ∧
    (createdWorkSpace tt f).1 (WORKSPACE - 5) = f / 256 % 256 ∧
    (createdWorkSpace tt f).1 (WORKSPACE - 6) = 0 ∧
    ∀ c, c < 34 → (createdWorkSpace tt f).1 (WORKSPACE - 7 - c) = c := by
  unfold createdWorkSpace
  refine ⟨?_, ?_, ?_, ?_, ?_, ?_, ?_⟩
  · rw [debugFill_fst_high _ 34 _ _ _ (by decide)]
    simp [wsWrite, WORKSPACE]
  · rw [debugFill_fst_high _ 34 _ _ _ (by decide)]
    simp [wsWrite, WORKSPACE]
  · rw [debugFill_fst_high _ 34 _ _ _ (by decide)]
    simp [wsWrite, WORKSPACE]
  · rw [debugFill_fst_high _ 34 _ _ _ (by decide)]
    simp [wsWrite, WORKSPACE]
  · rw [debugFill_fst_high _ 34 _ _ _ (by decide)]
    simp [wsWrite, WORKSPACE]
  · rw [debugFill_fst_high _ 34 _ _ _ (by decide)]
    simp [wsWrite, WORKSPACE]
  · intro c hc
    have hrd := debugFill_fst_read 34
      (wsWrite (wsWrite (wsWrite (wsWrite (wsWrite (wsWrite (fun _ => 0)
        (WORKSPACE - 1) (tt % 256)) (WORKSPACE - 2) (tt / 256 % 256)) (WORKSPACE - 3) 0)
        (WORKSPACE - 4) (f % 256)) (WORKSPACE - 5) (f / 256 % 256)) (WORKSPACE - 6) 0)
      (WORKSPACE - 7) 0 c hc (by decide)
    rw [hrd]
    omega

theorem dispatchSearch_mapPri (g : Nat → Nat) (s : KernelState) :
    ∀ n j, dispatchSearch (mapPri g s) j n = dispatchSearch s j n := by
  intro n
  induction n with
  | zero => intro j; rfl
  | succ m ih =>
    intro j
    rw [dispatchSearch, dispatchSearch, ih]
    rfl

theorem PD_ext (a b : PD)
    (h1 : a.pid = b.pid) (h2 : a.pri = b.pri) (h3 : a.state = b.state)
    (h4 : a.request = b.request) (h5 : a.request_arg = b.request_arg)
    (h6 : a.arg = b.arg) (h7 : a.sp = b.sp) (h8 : a.workSpace = b.workSpace)
    (h9 : a.code = b.code) : a = b := by
  cases a
  cases b
  simp_all

theorem KernelState_ext (a b : KernelState)
    (h1 : a.Process = b.Process) (h2 : a.Cp = b.Cp) (h3 : a.CurrentSp = b.CurrentSp)
    (h4 : a.NextP = b.NextP) (h5 : a.KernelActive = b.KernelActive)
    (h6 : a.Tasks = b.Tasks) (h7 : a.last_PID = b.last_PID) (h8 : a.err = b.err) :
    a = b := by
  cases a
  cases b
  simp_all

theorem Dispatch_mapPri (g : Nat → Nat) (s : KernelState) :
    Dispatch (mapPri g s) = Option.map (mapPri g) (Dispatch s) := by
  show (match dispatchSearch (mapPri g s) (mapPri g s).NextP MAXTHREAD with
        | none => none
        | some k => _) = _
  rw [show (mapPri g s).NextP = s.NextP from rfl, dispatchSearch_mapPri]
  unfold Dispatch
  cases hd : dispatchSearch s s.NextP MAXTHREAD with
  | none => rfl
  | some k =>
    show some _ = Option.map (mapPri g) (some _)
    rw [Option.map_some']
    refine congrArg some (KernelState_ext _ _ ?_ rfl rfl rfl rfl rfl rfl rfl)
    funext j
    simp only [mapPri, updProc]
    by_cases hj : j = k
    · subst hj
      simp
    · simp [hj]

theorem stepSetDispatch_one_running (s t : KernelState) (st : PROCESS_STATES)
    (hst : st ≠ RUNNING) (hN : s.NextP < MAXTHREAD)
    (h1 : s.Cp < MAXTHREAD)
    (h3 : ∀ i, i < MAXTHREAD → (s.Process i).state = RUNNING → i = s.Cp)
    (hD : Dispatch (updProc s s.Cp { s.Process s.Cp with state := st }) = some t) :
    ExactlyOneRunning t := by
  obtain ⟨⟨hchoice, hsp, hself, hframe, hnext⟩, hcp, _⟩ :=
    Dispatch_some_spec (updProc s s.Cp { s.Process s.Cp with state := st }) t hN hD
  refine ⟨hcp, by rw [hself], ?_⟩
  intro i hi hrun2
  by_cases hik : i = t.Cp
  · exact hik
  · rw [hframe i hik] at hrun2
    by_cases hic : i = s.Cp
    · rw [hic, updProc_self] at hrun2
      exact absurd hrun2 hst
    · rw [updProc_other s s.Cp i _ hic] at hrun2
      exact absurd (h3 i hi hrun2) hic

theorem create_one_running (s : KernelState) (tt f py : Nat) (arg : Int)
    (h1 : s.Cp < MAXTHREAD) (h2 : (s.Process s.Cp).state = RUNNING)
    (h3 : ∀ i, i < MAXTHREAD → (s.Process i).state = RUNNING → i = s.Cp) :
    ExactlyOneRunning (Kernel_Create_Task s tt f py arg) := by
  by_cases hT : s.Tasks = MAXTHREAD
  · rw [Kernel_Create_Task_full s tt f py arg hT]
    exact ⟨h1, h2, h3⟩
  · have hxne : s.Cp ≠ firstDead s := by
      intro he
      by_cases hxM : firstDead s < MAXTHREAD
      · have hdead := (firstDead_state s hxM).1
        rw [← he, h2] at hdead
        exact absurd hdead (by decide)
      · omega
    obtain ⟨hcp, _⟩ := Kernel_Create_Task_globals s tt f py arg hT
    refine ⟨by rw [hcp]; exact h1, ?_, ?_⟩
    · rw [hcp, Kernel_Create_Task_frame s tt f py arg hT s.Cp hxne]
      exact h2
    · intro i hi hrun2
      rw [hcp]
      by_cases hix : i = firstDead s
      · rw [hix, Kernel_Create_Task_newSlot s tt f py arg hT] at hrun2
        have hr2 : READY = RUNNING := hrun2
        exact absurd hr2 (by decide)
      · rw [Kernel_Create_Task_frame s tt f py arg hT i hix] at hrun2
        exact h3 i hi hrun2

theorem Kernel_Suspend_Task_notfound (s : KernelState)
    (h : findProcessByPID s (s.Process s.Cp).request_arg = none) :
    Kernel_Suspend_Task s = { s with err := PID_NOT_FOUND_ERR } := by
  unfold Kernel_Suspend_Task
  rw [h]

theorem Kernel_Suspend_Task_notready (s : KernelState) (i : Nat)
    (h : findProcessByPID s (s.Process s.Cp).request_arg = some i)
    (hstate : (s.Process i).state ≠ READY) :
    Kernel_Suspend_Task s = { s with err := SUSPEND_NONRUNNING_TASK_ERR } := by
  unfold Kernel_Suspend_Task
  rw [h]
  exact if_pos hstate

theorem Kernel_Suspend_Task_ok (s : KernelState) (i : Nat)
    (h : findProcessByPID s (s.Process s.Cp).request_arg = some i)
    (hstate : (s.Process i).state = READY) :
    Kernel_Suspend_Task s =
      { (updProc s i { s.Process i with state := SUSPENDED }) with err := NO_ERR } := by
  unfold Kernel_Suspend_Task
  rw [h]
  exact if_neg (fun hh => hh hstate)

theorem Kernel_Resume_Task_notfound (s : KernelState)
    (h : findProcessByPID s (s.Process s.Cp).request_arg = none) :
    Kernel_Resume_Task s = { s with err := PID_NOT_FOUND_ERR } := by
  unfold Kernel_Resume_Task
  rw [h]

theorem Kernel_Resume_Task_notsuspended (s : KernelState) (i : Nat)
    (h : findProcessByPID s (s.Process s.Cp).request_arg = some i)
    (hstate : (s.Process i).state ≠ SUSPENDED) :
    Kernel_Resume_Task s = { s with err := RESUME_NONSUSPENDED_TASK_ERR } := by
  unfold Kernel_Resume_Task
  rw [h]
  exact if_pos hstate

theorem Kernel_Resume_Task_ok (s : KernelState) (i : Nat)
    (h : findProcessByPID s (s.Process s.Cp).request_arg = some i)
    (hstate : (s.Process i).state = SUSPENDED) :
    Kernel_Resume_Task s =
      { (updProc s i { s.Process i with state := READY }) with err := NO_ERR } := by
  unfold Kernel_Resume_Task
  rw [h]
  exact if_neg (fun hh => hh hstate)

theorem suspend_ok_shape (s : KernelState) (i : Nat)
    (h : findProcessByPID s (s.Process s.Cp).request_arg = some i)
    (hstate : (s.Process i).state = READY) :
    (Kernel_Suspend_Task s).Cp = s.Cp ∧
    ((Kernel_Suspend_Task s).Process i).state = SUSPENDED ∧
    (Kernel_Suspend_Task s).err = NO_ERR ∧
    (∀ j, j ≠ i → (Kernel_Suspend_Task s).Process j = s.Process j) ∧
    (∀ j, ((Kernel_Suspend_Task s).Process j).pid = (s.Process j).pid) ∧
    ((Kernel_Suspend_Task s).Process (Kernel_Suspend_Task s).Cp).request_arg =
      (s.Process s.Cp).request_arg ∧
    findProcessByPID (Kernel_Suspend_Task s)
      ((Kernel_Suspend_Task s).Process (Kernel_Suspend_Task s).Cp).request_arg = some i := by
  have hok := Kernel_Suspend_Task_ok s i h hstate
  have hcp : (Kernel_Suspend_Task s).Cp = s.Cp := by
    rw [hok]
    rfl
  have herr : (Kernel_Suspend_Task s).err = NO_ERR := by
    rw [hok]
  have hprocj : ∀ j, (Kernel_Suspend_Task s).Process j =
      if j = i then { s.Process i with state := SUSPENDED } else s.Process j := by
    intro j
    rw [hok]
    rfl
  have hpid : ∀ j, ((Kernel_Suspend_Task s).Process j).pid = (s.Process j).pid := by
    intro j
    rw [hprocj j]
    by_cases hj : j = i
    · rw [if_pos hj, hj]
    · rw [if_neg hj]
  have harg : ((Kernel_Suspend_Task s).Process s.Cp).request_arg =
      (s.Process s.Cp).request_arg := by
    rw [hprocj s.Cp]
    by_cases hj : s.Cp = i
    · rw [if_pos hj, hj]
    · rw [if_neg hj]
  refine ⟨hcp, ?_, herr, ?_, hpid, ?_, ?_⟩
  · rw [hprocj i, if_pos rfl]
  · intro j hj
    rw [hprocj j, if_neg hj]
  · rw [hcp]
    exact harg
  · rw [hcp, harg, findProcessByPID_congr s _ _ hpid]
    exact h

/-- Claim C6: for every call to `Kernel_Suspend_Task` with target PID taken
from `Cp->request_arg`: no matching pid sets `PID_NOT_FOUND_ERR` and changes
nothing else, a target that is not READY sets `SUSPEND_NONRUNNING_TASK_ERR`
leaving it unchanged, a READY target becomes SUSPENDED with `err = NO_ERR`;
suspending the same READY task twice succeeds then fails with
`SUSPEND_NONRUNNING_TASK_ERR`, and a RUNNING caller whose own slot is the
lookup result cannot suspend itself. -/
theorem C6_suspend_semantics (s : KernelState) :
    (findProcessByPID s (s.Process s.Cp).request_arg = none →
      Kernel_Suspend_Task s = { s with err := PID_NOT_FOUND_ERR }) ∧
    (∀ i, findProcessByPID s (s.Process s.Cp).request_arg = some i →
      (s.Process i).state ≠ READY →
      Kernel_Suspend_Task s = { s with err := SUSPEND_NONRUNNING_TASK_ERR }) ∧
    (∀ i, findProcessByPID s (s.Process s.Cp).request_arg = some i →
      (s.Process i).state = READY →
      ((Kernel_Suspend_Task s).Process i).state = SUSPENDED ∧
      (Kernel_Suspend_Task s).err = NO_ERR ∧
      (∀ j, j ≠ i → (Kernel_Suspend_Task s).Process j = s.Process j) ∧
      (Kernel_Suspend_Task (Kernel_Suspend_Task s)).err = SUSPEND_NONRUNNING_TASK_ERR ∧
      ∀ j, (Kernel_Suspend_Task (Kernel_Suspend_Task s)).Process j =
        (Kernel_Suspend_Task s).Process j) ∧
    ((s.Process s.Cp).state = RUNNING →
      ∀ i, findProcessByPID s (s.Process s.Cp).request_arg = some i → i = s.Cp →
      Kernel_Suspend_Task s = { s with err := SUSPEND_NONRUNNING_TASK_ERR }) := by
  refine ⟨Kernel_Suspend_Task_notfound s, Kernel_Suspend_Task_notready s, ?_, ?_⟩
  · intro i h hstate
    obtain ⟨hcp, hsusp, herr, hframe, hpid, harg, hfind⟩ := suspend_ok_shape s i h hstate
    have hstate2 : ((Kernel_Suspend_Task s).Process i).state ≠ READY := by
      rw [hsusp]
      decide
    have hsecond := Kernel_Suspend_Task_notready (Kernel_Suspend_Task s) i hfind hstate2
    refine ⟨hsusp, herr, hframe, ?_, ?_⟩
    · rw [hsecond]
    · intro j
      rw [hsecond]
  · intro hrun i h hi
    apply Kernel_Suspend_Task_notready s i h
    rw [hi, hrun]
    decide

/-- Claim C6 witness at a concrete state: task 1 (RUNNING, slot 0) suspends
task 2 (READY, slot 1); the first attempt succeeds, the second fails. -/
theorem C6_witness :
    ((Kernel_Suspend_Task exSuspendState).Process 1).state = SUSPENDED ∧
    (Kernel_Suspend_Task exSuspendState).err = NO_ERR ∧
    (Kernel_Suspend_Task (Kernel_Suspend_Task exSuspendState)).err =
      SUSPEND_NONRUNNING_TASK_ERR := by
  have h := (C6_suspend_semantics exSuspendState).2.2.1 1 (by decide) (by decide)
  exact ⟨h.1, h.2.1, h.2.2.2.1⟩

/-- Claim C7: Suspend then Resume on a READY task restores its descriptor
(state READY) with `err = NO_ERR`; Resume alone fails with
`PID_NOT_FOUND_ERR` when the pid matches no slot and with
`RESUME_NONSUSPENDED_TASK_ERR` when the target is not SUSPENDED, changing
no task state in either failure. -/
theorem C7_resume_semantics (s : KernelState) :
    (findProcessByPID s (s.Process s.Cp).request_arg = none →
      Kernel_Resume_Task s = { s with err := PID_NOT_FOUND_ERR }) ∧
    (∀ i, findProcessByPID s (s.Process s.Cp).request_arg = some i →
      (s.Process i).state ≠ SUSPENDED →
      Kernel_Resume_Task s = { s with err := RESUME_NONSUSPENDED_TASK_ERR }) ∧
    (∀ i, findProcessByPID s (s.Process s.Cp).request_arg = some i →
      (s.Process i).state = SUSPENDED →
      ((Kernel_Resume_Task s).Process i).state = READY ∧
      (Kernel_Resume_Task s).err = NO_ERR ∧
      ∀ j, j ≠ i → (Kernel_Resume_Task s).Process j = s.Process j) ∧
    (∀ i, findProcessByPID s (s.Process s.Cp).request_arg = some i →
      (s.Process i).state = READY →
      (Kernel_Resume_Task (Kernel_Suspend_Task s)).Process i = s.Process i ∧
      (Kernel_Resume_Task (Kernel_Suspend_Task s)).err = NO_ERR ∧
      ∀ j, j ≠ i → (Kernel_Resume_Task (Kernel_Suspend_Task s)).Process j = s.Process j) := by
  refine ⟨Kernel_Resume_Task_notfound s, Kernel_Resume_Task_notsuspended s, ?_, ?_⟩
  · intro i h hstate
    have hok := Kernel_Resume_Task_ok s i h hstate
    rw [hok]
    refine ⟨?_, rfl, ?_⟩
    · show ((updProc s i { s.Process i with state := READY }).Process i).state = READY
      rw [updProc_self]
    · intro j hj
      show (updProc s i { s.Process i with state := READY }).Process j = s.Process j
      exact updProc_other s i j _ hj
  · intro i h hstate
    obtain ⟨hcp, hsusp, herr, hframe, hpid, harg, hfind⟩ := suspend_ok_shape s i h hstate
    have hok := Kernel_Resume_Task_ok (Kernel_Suspend_Task s) i hfind hsusp
    rw [hok]
    refine ⟨?_, rfl, ?_⟩
    · show ((updProc (Kernel_Suspend_Task s) i _).Process i) = s.Process i
      rw [updProc_self]
      have hfr : (Kernel_Suspend_Task s).Process i =
          { s.Process i with state := SUSPENDED } := by
        rw [Kernel_Suspend_Task_ok s i h hstate]
        exact updProc_self s i _
      rw [hfr]
      exact PD_ext _ _ rfl rfl hstate.symm rfl rfl rfl rfl rfl rfl
    · intro j hj
      show (updProc (Kernel_Suspend_Task s) i _).Process j = s.Process j
      rw [updProc_other _ i j _ hj]
      exact hframe j hj

/-- Claim C7 witness at a concrete state: suspend then resume task 2
restores its descriptor and reports `NO_ERR`. -/
theorem C7_witness :
    (Kernel_Resume_Task (Kernel_Suspend_Task exSuspendState)).Process 1 =
      exSuspendState.Process 1 ∧
    (Kernel_Resume_Task (Kernel_Suspend_Task exSuspendState)).err = NO_ERR := by
  have h := (C7_resume_semantics exSuspendState).2.2.2 1 (by decide) (by decide)
  exact ⟨h.1, h.2.1⟩

/-- Claim C8: one run of the tick ISR leaves every non-SLEEPING slot
unchanged, decrements `request_arg` of every SLEEPING slot and makes it
READY exactly when the decremented value is `<= 0`; a task sleeping with
`request_arg = 1` is made READY (with counter 0) by a single invocation. -/
theorem C8_tick_semantics (s : KernelState) (i : Nat) (hi : i < MAXTHREAD) :
    ((s.Process i).state ≠ SLEEPING → (tickISR s).Process i = s.Process i) ∧
    ((s.Process i).state = SLEEPING →
      (tickISR s).Process i =
        { s.Process i with
          request_arg := (s.Process i).request_arg - 1,
          state := if (s.Process i).request_arg - 1 ≤ 0 then READY else SLEEPING }) ∧
    ((s.Process i).state = SLEEPING → (s.Process i).request_arg = 1 →
      ((tickISR s).Process i).state = READY ∧ ((tickISR s).Process i).request_arg = 0) := by
  have hp : (tickISR s).Process i = tickSlot (s.Process i) := by
    show (if i < MAXTHREAD then _ else _) = _
    rw [if_pos hi]
  refine ⟨?_, ?_, ?_⟩
  · intro h
    rw [hp]
    unfold tickSlot
    rw [if_neg h]
  · intro h
    rw [hp]
    unfold tickSlot
    rw [if_pos h]
    by_cases hle : (s.Process i).request_arg - 1 ≤ 0
    · rw [if_pos hle, if_pos hle]
    · rw [if_neg hle, if_neg hle]
      exact PD_ext _ _ rfl rfl h rfl rfl rfl rfl rfl rfl
  · intro h h1
    rw [hp]
    unfold tickSlot
    rw [if_pos h, if_pos (by rw [h1]; decide)]
    refine ⟨rfl, ?_⟩
    show (s.Process i).request_arg - 1 = 0
    rw [h1]
    decide

/-- Claim C8 witness: a single tick wakes the task that went to sleep with
one remaining tick. -/
theorem C8_witness :
    ((tickISR exSleepState).Process 0).state = READY ∧
    ((tickISR exSleepState).Process 0).request_arg = 0 :=
  (C8_tick_semantics exSleepState 0 (by decide)).2.2 (by decide) (by decide)

/-- Claim C2 counterexample: in a state with 16 creations since boot
(`Tasks = MAXTHREAD`) and slot 0 DEAD again after a termination,
`Kernel_Create_Task` sets `MAX_PROCESS_ERR` and allocates nothing even
though a DEAD slot exists, so the guard is not "no slot is DEAD". -/
theorem C2_counterexample :
    (exFullState.Process 0).state = DEAD ∧
    (Kernel_Create_Task exFullState 3 5 7 0).err = MAX_PROCESS_ERR ∧
    ((Kernel_Create_Task exFullState 3 5 7 0).Process 0).state = DEAD ∧
    (Kernel_Create_Task exFullState 3 5 7 0).Tasks = 16 ∧
    Task_Create_return (Kernel_Create_Task exFullState 3 5 7 0) = 0 := by
  refine ⟨?_, ?_, ?_, ?_, ?_⟩ <;> decide

/-- Claim C2 (corrected): the creation guard is `Tasks == MAXTHREAD` (the
count of creations since boot, never decremented), not the absence of a
DEAD slot.  When it trips, `err = MAX_PROCESS_ERR`, nothing else changes
and `Task_Create` returns PID 0; when `Tasks ≠ MAXTHREAD` and a DEAD slot
exists, the first DEAD slot found by linear scan from index 0 is
allocated. -/
theorem C2_create_guard (s : KernelState) (tt f py : Nat) (arg : Int) :
    (s.Tasks = MAXTHREAD →
      Kernel_Create_Task s tt f py arg = { s with err := MAX_PROCESS_ERR } ∧
      Task_Create_return (Kernel_Create_Task s tt f py arg) = 0) ∧
    (s.Tasks ≠ MAXTHREAD → ∀ i, i < MAXTHREAD → (s.Process i).state = DEAD →
      firstDead s < MAXTHREAD ∧ (s.Process (firstDead s)).state = DEAD ∧
      (∀ e, e < firstDead s → (s.Process e).state ≠ DEAD) ∧
      ((Kernel_Create_Task s tt f py arg).Process (firstDead s)).state = READY ∧
      ((Kernel_Create_Task s tt f py arg).Process (firstDead s)).pid =
        (s.last_PID + 1) % 2 ^ 32 ∧
      ((Kernel_Create_Task s tt f py arg).Process (firstDead s)).code = f ∧
      (Kernel_Create_Task s tt f py arg).Tasks = (s.Tasks + 1) % 2 ^ 32 ∧
      (Kernel_Create_Task s tt f py arg).err = NO_ERR ∧
      ∀ j, j ≠ firstDead s →
        (Kernel_Create_Task s tt f py arg).Process j = s.Process j) := by
  constructor
  · intro hT
    have hfull := Kernel_Create_Task_full s tt f py arg hT
    refine ⟨hfull, ?_⟩
    rw [hfull]
    rfl
  · intro hT i hi hd
    obtain ⟨hle, hM⟩ := firstDead_le s i hi hd
    obtain ⟨hdead, hmin⟩ := firstDead_state s hM
    have hnew := Kernel_Create_Task_newSlot s tt f py arg hT
    obtain ⟨hcp, hTasks, hlast, herr, _⟩ := Kernel_Create_Task_globals s tt f py arg hT
    refine ⟨hM, hdead, hmin, ?_, ?_, ?_, hTasks, herr,
      Kernel_Create_Task_frame s tt f py arg hT⟩
    · rw [hnew]
    · rw [hnew]
    · rw [hnew]

/-- Claim C2 witness: the guard branch at a concrete full state, and a
concrete successful allocation in the freshly initialized state. -/
theorem C2_witness :
    Kernel_Create_Task exFullState 3 5 7 0 = { exFullState with err := MAX_PROCESS_ERR } ∧
    ((Kernel_Create_Task (OS_Init bootState) 17 23 5 9).Process
      (firstDead (OS_Init bootState))).state = READY := by
  constructor
  · exact ((C2_create_guard exFullState 3 5 7 0).1 (by decide)).1
  · exact ((C2_create_guard (OS_Init bootState) 17 23 5 9).2 (by decide) 0 (by decide)
      (by decide)).2.2.2.1

/-- Claim C5 counterexample: creating a task in the freshly initialized
state records an initial `sp` that is 3 + 3 + 34 = 40 bytes below the top
workspace byte (the `DEBUG` fill loop runs 34 times), not the claimed
3 + 3 + 33 = 39 bytes. -/
theorem C5_counterexample :
    ((Kernel_Create_Task (OS_Init bootState) 4660 9320 7 0).Process 0).sp ≠
      WORKSPACE - 1 - (3 + 3 + 33) ∧
    ((Kernel_Create_Task (OS_Init bootState) 4660 9320 7 0).Process 0).sp =
      WORKSPACE - 1 - (3 + 3 + 34) := by
  refine ⟨?_, ?_⟩ <;> decide

/-- Claim C5 (corrected): task creation writes, from the top of the
workspace downward, the three `Task_Terminate` address bytes (low, high,
zero), then the three entry-point bytes, then reserves exactly 34 bytes
(filled with the debug pattern 0..33), so the recorded initial `sp` lies
3 + 3 + 34 = 40 bytes below the highest workspace address. -/
theorem C5_initial_stack_layout (s : KernelState) (tt f py : Nat) (arg : Int)
    (hT : s.Tasks ≠ MAXTHREAD) :
    ((Kernel_Create_Task s tt f py arg).Process (firstDead s)).workSpace
      (WORKSPACE - 1) = tt % 256 ∧
    ((Kernel_Create_Task s tt f py arg).Process (firstDead s)).workSpace
      (WORKSPACE - 2) = tt / 256 % 256 ∧
    ((Kernel_Create_Task s tt f py arg).Process (firstDead s)).workSpace
      (WORKSPACE - 3) = 0 ∧
    ((Kernel_Create_Task s tt f py arg).Process (firstDead s)).workSpace
      (WORKSPACE - 4) = f % 256 ∧
    ((Kernel_Create_Task s tt f py arg).Process (firstDead s)).workSpace
      (WORKSPACE - 5) = f / 256 % 256 ∧
    ((Kernel_Create_Task s tt f py arg).Process (firstDead s)).workSpace
      (WORKSPACE - 6) = 0 ∧
    (∀ c, c < 34 →
      ((Kernel_Create_Task s tt f py arg).Process (firstDead s)).workSpace
        (WORKSPACE - 7 - c) = c) ∧
    ((Kernel_Create_Task s tt f py arg).Process (firstDead s)).sp =
      WORKSPACE - 1 - (3 + 3 + 34) := by
  have hnew := Kernel_Create_Task_newSlot s tt f py arg hT
  obtain ⟨r1, r2, r3, r4, r5, r6, r7⟩ := createdWorkSpace_reads tt f
  rw [hnew]
  refine ⟨r1, r2, r3, r4, r5, r6, r7, ?_⟩
  show (createdWorkSpace tt f).2 = WORKSPACE - 1 - (3 + 3 + 34)
  rw [createdWorkSpace_snd]
  decide

/-- Claim C5 witness: the layout theorem applied in the freshly initialized
state. -/
theorem C5_witness :
    ((Kernel_Create_Task (OS_Init bootState) 4660 9320 7 0).Process
      (firstDead (OS_Init bootState))).sp = WORKSPACE - 1 - (3 + 3 + 34) :=
  (C5_initial_stack_layout (OS_Init bootState) 4660 9320 7 0 (by decide)).2.2.2.2.2.2.2

/-- Claim C3: whenever some slot is READY, `Dispatch` selects the first
READY slot at or cyclically after `NextP`, points `Cp` at it, copies its
`sp` into `CurrentSp`, marks it RUNNING and leaves `NextP` one past the
chosen index modulo MAXTHREAD; if the only READY slot is the one just
preempted it is re-selected; and the stored priority is never consulted
(replacing every priority commutes with `Dispatch`). -/
theorem C3_dispatch_round_robin (s : KernelState) (hN : s.NextP < MAXTHREAD) :
    ((∃ i, i < MAXTHREAD ∧ (s.Process i).state = READY) →
      ∃ t, Dispatch s = some t ∧ DispatchSpec s t ∧
        ∀ k, k < MAXTHREAD → (s.Process k).state = READY →
          (∀ i, i < MAXTHREAD → (s.Process i).state = READY → i = k) → t.Cp = k) ∧
    ∀ g, Dispatch (mapPri g s) = Option.map (mapPri g) (Dispatch s) := by
  refine ⟨?_, fun g => Dispatch_mapPri g s⟩
  intro h
  obtain ⟨t, ht⟩ := Dispatch_exists s hN h
  obtain ⟨hspec, hcp, _⟩ := Dispatch_some_spec s t hN ht
  refine ⟨t, ht, hspec, ?_⟩
  intro k hk hkready huniq
  obtain ⟨d, _, _, hready, _⟩ := hspec.1
  exact huniq t.Cp hcp hready

/-- Claim C3 witness: in a concrete state with `NextP = 1` and only slot 1
READY, dispatch succeeds and satisfies the round-robin specification. -/
theorem C3_witness :
    ∃ t, Dispatch exSuspendState = some t ∧ DispatchSpec exSuspendState t ∧
      ∀ k, k < MAXTHREAD → (exSuspendState.Process k).state = READY →
        (∀ i, i < MAXTHREAD → (exSuspendState.Process i).state = READY → i = k) →
        t.Cp = k :=
  (C3_dispatch_round_robin exSuspendState (by decide)).1 ⟨1, by decide, by decide⟩

theorem suspend_one_running (s : KernelState)
    (h1 : s.Cp < MAXTHREAD) (h2 : (s.Process s.Cp).state = RUNNING)
    (h3 : ∀ i, i < MAXTHREAD → (s.Process i).state = RUNNING → i = s.Cp) :
    ExactlyOneRunning (Kernel_Suspend_Task s) := by
  cases hf : findProcessByPID s (s.Process s.Cp).request_arg with
  | none =>
    rw [Kernel_Suspend_Task_notfound s hf]
    exact ⟨h1, h2, h3⟩
  | some i =>
    by_cases hstate : (s.Process i).state = READY
    · obtain ⟨hcp, hsusp, herr, hframe, hpid, _⟩ := suspend_ok_shape s i hf hstate
      have hne : s.Cp ≠ i := by
        intro he
        rw [← he, h2] at hstate
        exact absurd hstate (by decide)
      refine ⟨by rw [hcp]; exact h1, ?_, ?_⟩
      · rw [hcp, hframe s.Cp hne]
        exact h2
      · intro j hj hrunj
        rw [hcp]
        by_cases hji : j = i
        · rw [hji] at hrunj
          rw [hsusp] at hrunj
          exact absurd hrunj (by decide)
        · rw [hframe j hji] at hrunj
          exact h3 j hj hrunj
    · rw [Kernel_Suspend_Task_notready s i hf hstate]
      exact ⟨h1, h2, h3⟩

theorem resume_ok_shape (s : KernelState) (i : Nat)
    (h : findProcessByPID s (s.Process s.Cp).request_arg = some i)
    (hstate : (s.Process i).state = SUSPENDED) :
    (Kernel_Resume_Task s).Cp = s.Cp ∧
    ((Kernel_Resume_Task s).Process i).state = READY ∧
    ∀ j, j ≠ i → (Kernel_Resume_Task s).Process j = s.Process j := by
  have hok := Kernel_Resume_Task_ok s i h hstate
  have hcp : (Kernel_Resume_Task s).Cp = s.Cp := by
    rw [hok]
    rfl
  have hprocj : ∀ j, (Kernel_Resume_Task s).Process j =
      if j = i then { s.Process i with state := READY } else s.Process j := by
    intro j
    rw [hok]
    rfl
  refine ⟨hcp, ?_, ?_⟩
  · rw [hprocj i, if_pos rfl]
  · intro j hj
    rw [hprocj j, if_neg hj]

theorem resume_one_running (s : KernelState)
    (h1 : s.Cp < MAXTHREAD) (h2 : (s.Process s.Cp).state = RUNNING)
    (h3 : ∀ i, i < MAXTHREAD → (s.Process i).state = RUNNING → i = s.Cp) :
    ExactlyOneRunning (Kernel_Resume_Task s) := by
  cases hf : findProcessByPID s (s.Process s.Cp).request_arg with
  | none =>
    rw [Kernel_Resume_Task_notfound s hf]
    exact ⟨h1, h2, h3⟩
  | some i =>
    by_cases hstate : (s.Process i).state = SUSPENDED
    · obtain ⟨hcp, hready, hframe⟩ := resume_ok_shape s i hf hstate
      have hne : s.Cp ≠ i := by
        intro he
        rw [← he, h2] at hstate
        exact absurd hstate (by decide)
      refine ⟨by rw [hcp]; exact h1, ?_, ?_⟩
      · rw [hcp, hframe s.Cp hne]
        exact h2
      · intro j hj hrunj
        rw [hcp]
        by_cases hji : j = i
        · rw [hji] at hrunj
          rw [hready] at hrunj
          exact absurd hrunj (by decide)
        · rw [hframe j hji] at hrunj
          exact h3 j hj hrunj
    · rw [Kernel_Resume_Task_notsuspended s i hf hstate]
      exact ⟨h1, h2, h3⟩

/-- Claim C4: every request handler of the kernel loop (CREATE, TERMINATE,
SUSPEND, RESUME, SLEEP, YIELD, NONE and the invalid-request branch)
preserves the invariant that exactly one TCB slot is RUNNING and `Cp`
points at it. -/
theorem C4_unique_running (tt : Nat) (s t : KernelState)
    (hN : s.NextP < MAXTHREAD) (hone : ExactlyOneRunning s)
    (hstep : Next_Request_Step tt s = some t) :
    ExactlyOneRunning t := by
  obtain ⟨h1, h2, h3⟩ := hone
  simp only [Next_Request_Step] at hstep
  by_cases hc1 : (s.Process s.Cp).request = CREATE
  · rw [if_pos hc1] at hstep
    cases hstep
    exact create_one_running s tt _ _ _ h1 h2 h3
  · rw [if_neg hc1] at hstep
    by_cases hc2 : (s.Process s.Cp).request = TERMINATE
    · rw [if_pos hc2] at hstep
      exact stepSetDispatch_one_running s t DEAD (by decide) hN h1 h3 hstep
    · rw [if_neg hc2] at hstep
      by_cases hc3 : (s.Process s.Cp).request = SUSPEND
      · rw [if_pos hc3] at hstep
        cases hstep
        exact suspend_one_running s h1 h2 h3
      · rw [if_neg hc3] at hstep
        by_cases hc4 : (s.Process s.Cp).request = RESUME
        · rw [if_pos hc4] at hstep
          cases hstep
          exact resume_one_running s h1 h2 h3
        · rw [if_neg hc4] at hstep
          by_cases hc5 : (s.Process s.Cp).request = SLEEP
          · rw [if_pos hc5] at hstep
            exact stepSetDispatch_one_running s t SLEEPING (by decide) hN h1 h3 hstep
          · rw [if_neg hc5] at hstep
            by_cases hc6 : (s.Process s.Cp).request = YIELD ∨
                (s.Process s.Cp).request = NONE
            · rw [if_pos hc6] at hstep
              exact stepSetDispatch_one_running s t READY (by decide) hN h1 h3 hstep
            · rw [if_neg hc6] at hstep
              cases hstep
              exact ⟨h1, h2, h3⟩

/-- Claim C4 witness: the TERMINATE handler at a concrete state keeps
exactly one slot RUNNING with `Cp` pointing at it. -/
theorem C4_witness :
    ∃ t, Next_Request_Step 0 exTermState = some t ∧ ExactlyOneRunning t := by
  obtain ⟨t, ht⟩ := Option.isSome_iff_exists.mp
    (show (Next_Request_Step 0 exTermState).isSome = true by decide)
  exact ⟨t, ht, C4_unique_running 0 exTermState t (by decide)
    ⟨by decide, by decide, by decide⟩ ht⟩

/-- Claim C1 counterexample: in a concrete state where `Tasks` equals the
non-DEAD count (2 = 2), handling the caller's TERMINATE request leaves
`Tasks = 2` while the non-DEAD count drops to 1 — the handler does not
decrement `Tasks`, so the claimed invariant is not preserved. -/
theorem C1_counterexample :
    exTermState.Tasks = nonDeadCount exTermState ∧
    (Next_Request_Step 0 exTermState).map (fun u => (u.Tasks, nonDeadCount u)) =
      some (2, 1) := by
  refine ⟨?_, ?_⟩ <;> decide

/-- Claim C1 (corrected): handling a TERMINATE request sets the caller's
slot DEAD and dispatches, but does NOT decrement `Tasks` (the code keeps
`Tasks` as the count of creations since boot); hence the non-DEAD count
drops by one while `Tasks` is unchanged, and after a Create followed by a
Terminate only the non-DEAD slot count — not `Tasks` — returns to its
previous value. -/
theorem C1_terminate_keeps_Tasks (tt : Nat) (s t : KernelState)
    (hN : s.NextP < MAXTHREAD) (hCp : s.Cp < MAXTHREAD)
    (hrun : (s.Process s.Cp).state = RUNNING)
    (hreq : (s.Process s.Cp).request = TERMINATE)
    (hstep : Next_Request_Step tt s = some t) :
    t.Tasks = s.Tasks ∧ (t.Process s.Cp).state = DEAD ∧
    nonDeadCount t + 1 = nonDeadCount s := by
  simp only [Next_Request_Step] at hstep
  rw [if_neg (by rw [hreq]; decide), if_pos hreq] at hstep
  obtain ⟨⟨hchoice, hsp, hself, hframe, hnext⟩, hcpM, hTasks, _⟩ :=
    Dispatch_some_spec (updProc s s.Cp { s.Process s.Cp with state := DEAD }) t hN hstep
  obtain ⟨d, hd1, hd2, hready, hd4⟩ := hchoice
  have hne : t.Cp ≠ s.Cp := by
    intro he
    rw [he, updProc_self] at hready
    have hh : DEAD = READY := hready
    exact absurd hh (by decide)
  have hcpstate : (t.Process s.Cp).state = DEAD := by
    rw [hframe s.Cp (fun hh => hne hh.symm), updProc_self]
  refine ⟨?_, hcpstate, ?_⟩
  · rw [hTasks]
    rfl
  · apply nonDeadCount_kill s t s.Cp hCp _ (by rw [hrun]; decide) hcpstate
    intro j hj hjne
    by_cases hjt : j = t.Cp
    · rw [hjt, hself]
      have hs1j : (updProc s s.Cp { s.Process s.Cp with state := DEAD }).Process t.Cp =
          s.Process t.Cp := updProc_other s s.Cp t.Cp _ hne
      rw [hs1j] at hready
      constructor
      · intro hh
        have hh2 : RUNNING = DEAD := hh
        exact absurd hh2 (by decide)
      · intro hh
        rw [hready] at hh
        exact absurd hh (by decide)
    · rw [hframe j hjt, updProc_other s s.Cp j _ hjne]

/-- Claim C1 witness: the TERMINATE handler at a concrete state keeps
`Tasks` at 2 while the non-DEAD count drops from 2 to 1. -/
theorem C1_witness :
    ∃ t, Next_Request_Step 0 exTermState = some t ∧ t.Tasks = 2 ∧
      (t.Process 0).state = DEAD ∧ nonDeadCount t + 1 = nonDeadCount exTermState := by
  obtain ⟨t, ht⟩ := Option.isSome_iff_exists.mp
    (show (Next_Request_Step 0 exTermState).isSome = true by decide)
  have h := C1_terminate_keeps_Tasks 0 exTermState t (by decide) (by decide)
    (by decide) (by decide) ht
  refine ⟨t, ht, ?_, h.2.1, h.2.2⟩
  rw [h.1]
  rfl

theorem findPIDByFuncPtr_none (s : KernelState) (f : Nat)
    (h : ∀ e, e < MAXTHREAD → (s.Process e).code ≠ f) :
    findPIDByFuncPtr s f = -1 := by
  unfold findPIDByFuncPtr
  cases hscan : scanFirst (fun i => (s.Process i).code == f) 0 MAXTHREAD with
  | none => rfl
  | some y =>
    obtain ⟨_, hy2, hy3, _⟩ := scanFirst_some_spec _ MAXTHREAD 0 y hscan
    exact absurd (by simpa using hy3) (h y (by omega))

/-- Claim C9: with the kernel active, `Task_Create(f, py, arg)` overwrites
the calling task's own TCB fields `code`, `pri` and `arg` with the
arguments (and its `request`, later cleared to NONE), and they are never
restored after the syscall returns: the caller's `code` is `f` afterwards,
so if no other slot holds the caller's original entry point,
`findPIDByFuncPtr` on that original pointer no longer identifies the
caller (it returns -1). -/
theorem C9_create_clobbers_caller (tt f py : Nat) (arg : Int) (s : KernelState)
    (hK : s.KernelActive = true) (hCp : s.Cp < MAXTHREAD)
    (hrun : (s.Process s.Cp).state = RUNNING) :
    ∃ t, Task_Create_syscall tt s f py arg = some t ∧
      (t.Process s.Cp).code = f ∧ (t.Process s.Cp).pri = py ∧
      (t.Process s.Cp).arg = arg ∧ (t.Process s.Cp).request = NONE ∧
      (f ≠ (s.Process s.Cp).code →
        (∀ j, j < MAXTHREAD → j ≠ s.Cp → (s.Process j).code ≠ (s.Process s.Cp).code) →
        findPIDByFuncPtr t (s.Process s.Cp).code = -1) := by
  set s0 : KernelState := kernelEntrySave (Task_Create_fill s f py arg) with hs0
  have hfill : ∀ j, (Task_Create_fill s f py arg).Process j =
      if j = s.Cp then
        { s.Process s.Cp with
            pri := py
            arg := arg
            request := CREATE
            code := f }
      else s.Process j := fun j => rfl
  have hsave : ∀ j, s0.Process j =
      if j = s.Cp then
        { (Task_Create_fill s f py arg).Process s.Cp with sp := s.CurrentSp }
      else (Task_Create_fill s f py arg).Process j := fun j => rfl
  have hproc0 : ∀ j, s0.Process j =
      if j = s.Cp then
        { s.Process s.Cp with
            pri := py
            arg := arg
            request := CREATE
            code := f
            sp := s.CurrentSp }
      else s.Process j := by
    intro j
    rw [hsave j]
    by_cases hj : j = s.Cp
    · rw [if_pos hj, if_pos hj, hfill s.Cp, if_pos rfl]
    · rw [if_neg hj, if_neg hj, hfill j, if_neg hj]
  have hcp0 : s0.Cp = s.Cp := rfl
  have hreq0 : (s0.Process s0.Cp).request = CREATE := by
    rw [hcp0, hproc0 s.Cp, if_pos rfl]
  have hcode0 : (s0.Process s0.Cp).code = f := by
    rw [hcp0, hproc0 s.Cp, if_pos rfl]
  have hpri0 : (s0.Process s0.Cp).pri = py := by
    rw [hcp0, hproc0 s.Cp, if_pos rfl]
  have harg0 : (s0.Process s0.Cp).arg = arg := by
    rw [hcp0, hproc0 s.Cp, if_pos rfl]
  have hstate0 : (s0.Process s.Cp).state = RUNNING := by
    rw [hproc0 s.Cp, if_pos rfl]
    exact hrun
  have hstep : Next_Request_Step tt s0 = some (Kernel_Create_Task s0 tt f py arg) := by
    simp only [Next_Request_Step]
    rw [if_pos hreq0, hcode0, hpri0, harg0]
  set u : KernelState := Kernel_Create_Task s0 tt f py arg with hu
  have hucp : u.Cp = s.Cp := by
    by_cases hT : s0.Tasks = MAXTHREAD
    · rw [hu, Kernel_Create_Task_full s0 tt f py arg hT]
      rfl
    · rw [hu, (Kernel_Create_Task_globals s0 tt f py arg hT).1]
      rfl
  have hne2 : ∀ hT : s0.Tasks ≠ MAXTHREAD, s.Cp ≠ firstDead s0 := by
    intro hT he
    by_cases hxM : firstDead s0 < MAXTHREAD
    · have hdead := (firstDead_state s0 hxM).1
      rw [← he, hstate0] at hdead
      exact absurd hdead (by decide)
    · omega
  have huproc_cp : u.Process s.Cp =
      { s.Process s.Cp with
          pri := py
          arg := arg
          request := CREATE
          code := f
          sp := s.CurrentSp } := by
    by_cases hT : s0.Tasks = MAXTHREAD
    · rw [hu, Kernel_Create_Task_full s0 tt f py arg hT]
      rw [show ({ s0 with err := MAX_PROCESS_ERR } : KernelState).Process s.Cp =
        s0.Process s.Cp from rfl, hproc0 s.Cp, if_pos rfl]
    · rw [hu, Kernel_Create_Task_frame s0 tt f py arg hT s.Cp (hne2 hT),
        hproc0 s.Cp, if_pos rfl]
  set t : KernelState := loopPrologue u with htdef
  have hsys : Task_Create_syscall tt s f py arg = some t := by
    unfold Task_Create_syscall
    rw [if_pos hK, ← hs0, hstep]
    rfl
  have htproc : ∀ j, t.Process j =
      if j = u.Cp then { u.Process u.Cp with request := NONE }
      else u.Process j := fun j => rfl
  have htcp : t.Process s.Cp =
      { s.Process s.Cp with
          pri := py
          arg := arg
          request := NONE
          code := f
          sp := s.CurrentSp } := by
    rw [htproc s.Cp, hucp, if_pos rfl, huproc_cp]
  refine ⟨t, hsys, ?_, ?_, ?_, ?_, ?_⟩
  · rw [htcp]
  · rw [htcp]
  · rw [htcp]
  · rw [htcp]
  · intro hnef hothers
    apply findPIDByFuncPtr_none
    intro e heM
    by_cases hesc : e = s.Cp
    · rw [hesc, htcp]
      exact hnef
    · have hteu : t.Process e = u.Process e := by
        rw [htproc e, hucp, if_neg hesc]
      rw [hteu]
      by_cases hT : s0.Tasks = MAXTHREAD
      · rw [hu, Kernel_Create_Task_full s0 tt f py arg hT,
          show ({ s0 with err := MAX_PROCESS_ERR } : KernelState).Process e =
            s0.Process e from rfl, hproc0 e, if_neg hesc]
        exact hothers e heM hesc
      · by_cases hefd : e = firstDead s0
        · rw [hu, hefd, Kernel_Create_Task_newSlot s0 tt f py arg hT]
          exact hnef
        · rw [hu, Kernel_Create_Task_frame s0 tt f py arg hT e hefd,
            hproc0 e, if_neg hesc]
          exact hothers e heM hesc

/-- Claim C9 witness: a RUNNING task whose entry point is 100 creates a
task with entry point 200; afterwards its own `code` field is 200 and the
lookup of 100 no longer finds it. -/
theorem C9_witness :
    ∃ t, Task_Create_syscall 55 exCreateState 200 5 9 = some t ∧
      (t.Process 0).code = 200 ∧ findPIDByFuncPtr t 100 = -1 := by
  obtain ⟨t, ht, hcode, hpri, harg, hreq, hfind⟩ :=
    C9_create_clobbers_caller 55 200 5 9 exCreateState (by decide) (by decide) (by decide)
  exact ⟨t, ht, hcode, hfind (by decide) (by decide)⟩

/-- Claim C10: `findProcessByPID` compares only the stored `pid` field and
never the slot's state (it is invariant under any change that preserves
pids); `OS_Init` zeroes every slot's pid; consequently, in a running
kernel in which every slot with pid 0 is DEAD and at least one such slot
exists, `Task_Suspend(0)` finds a DEAD slot and fails with
`SUSPEND_NONRUNNING_TASK_ERR`, not `PID_NOT_FOUND_ERR` — a DEAD slot's
pid still matches lookups. -/
theorem C10_pid_lookup_ignores_state (tt : Nat) :
    (∀ s u : KernelState, ∀ x : Int,
      (∀ j, (u.Process j).pid = (s.Process j).pid) →
      findProcessByPID u x = findProcessByPID s x) ∧
    (∀ s : KernelState, ∀ i, i < MAXTHREAD → ((OS_Init s).Process i).pid = 0) ∧
    (∀ s : KernelState, s.KernelActive = true →
      (∃ i, i < MAXTHREAD ∧ (s.Process i).pid % 2 ^ 32 = 0) →
      (∀ i, i < MAXTHREAD → (s.Process i).pid % 2 ^ 32 = 0 → (s.Process i).state = DEAD) →
      ∃ t, Next_Request_Step tt (kernelEntrySave (Task_Suspend_fill s 0)) = some t ∧
        t.err = SUSPEND_NONRUNNING_TASK_ERR) := by
  refine ⟨fun s u x h => findProcessByPID_congr s u x h, ?_, ?_⟩
  · intro s i hi
    show (if i < MAXTHREAD then initPD else s.Process i).pid = 0
    rw [if_pos hi]
    rfl
  · intro s hK hex hdead
    have hTS : Task_Suspend_fill s 0 = updProc s s.Cp
        { s.Process s.Cp with request := SUSPEND, request_arg := int32 0 } := by
      unfold Task_Suspend_fill
      rw [if_pos hK]
    rw [hTS]
    set s0 : KernelState := kernelEntrySave (updProc s s.Cp
      { s.Process s.Cp with request := SUSPEND, request_arg := int32 0 }) with hs0
    have hfill : ∀ j, (updProc s s.Cp
        { s.Process s.Cp with request := SUSPEND, request_arg := int32 0 }).Process j =
        if j = s.Cp then
          { s.Process s.Cp with request := SUSPEND, request_arg := int32 0 }
        else s.Process j := fun j => rfl
    have hsave : ∀ j, s0.Process j =
        if j = s.Cp then
          { (updProc s s.Cp
              { s.Process s.Cp with request := SUSPEND, request_arg := int32 0 }).Process
              s.Cp with sp := s.CurrentSp }
        else (updProc s s.Cp
          { s.Process s.Cp with request := SUSPEND, request_arg := int32 0 }).Process j :=
      fun j => rfl
    have hproc0 : ∀ j, s0.Process j =
        if j = s.Cp then
          { s.Process s.Cp with
              request := SUSPEND
              request_arg := int32 0
              sp := s.CurrentSp }
        else s.Process j := by
      intro j
      rw [hsave j]
      by_cases hj : j = s.Cp
      · rw [if_pos hj, if_pos hj, hfill s.Cp, if_pos rfl]
      · rw [if_neg hj, if_neg hj, hfill j, if_neg hj]
    have hcp0 : s0.Cp = s.Cp := rfl
    have hreq0 : (s0.Process s0.Cp).request = SUSPEND := by
      rw [hcp0, hproc0 s.Cp, if_pos rfl]
    have harg0 : (s0.Process s0.Cp).request_arg = int32 0 := by
      rw [hcp0, hproc0 s.Cp, if_pos rfl]
    have hpid0 : ∀ j, (s0.Process j).pid = (s.Process j).pid := by
      intro j
      rw [hproc0 j]
      by_cases hj : j = s.Cp
      · rw [if_pos hj, hj]
      · rw [if_neg hj]
    have hstate0 : ∀ j, (s0.Process j).state = (s.Process j).state := by
      intro j
      rw [hproc0 j]
      by_cases hj : j = s.Cp
      · rw [if_pos hj, hj]
      · rw [if_neg hj]
    have hstep : Next_Request_Step tt s0 = some (Kernel_Suspend_Task s0) := by
      simp only [Next_Request_Step]
      rw [if_neg (by rw [hreq0]; decide), if_neg (by rw [hreq0]; decide), if_pos hreq0]
    have hu0 : uint32 (int32 0) = 0 := by decide
    cases hf : findProcessByPID s (int32 0) with
    | none =>
      exfalso
      obtain ⟨i, hiM, hpid⟩ := hex
      have hfalse := scanFirst_none_spec _ MAXTHREAD 0 hf i (Nat.zero_le i) (by omega)
      simp [hu0] at hfalse
      exact hfalse (by simpa using hpid)
    | some i0 =>
      obtain ⟨hi0M, hpideq⟩ := findProcessByPID_mem s (int32 0) i0 hf
      have hdead0 : (s.Process i0).state = DEAD := hdead i0 hi0M (by rw [hpideq, hu0])
      have hfind0 : findProcessByPID s0 ((s0.Process s0.Cp).request_arg) = some i0 := by
        rw [harg0, findProcessByPID_congr s s0 (int32 0) hpid0]
        exact hf
      have hnotready : (s0.Process i0).state ≠ READY := by
        rw [hstate0 i0, hdead0]
        decide
      have hres := Kernel_Suspend_Task_notready s0 i0 hfind0 hnotready
      refine ⟨Kernel_Suspend_Task s0, hstep, ?_⟩
      rw [hres]

/-- Claim C10 witness: right after boot with the kernel marked active,
suspending the reserved pid 0 reports `SUSPEND_NONRUNNING_TASK_ERR`. -/
theorem C10_witness :
    ∃ t, Next_Request_Step 0 (kernelEntrySave (Task_Suspend_fill exPidZeroState 0)) =
      some t ∧ t.err = SUSPEND_NONRUNNING_TASK_ERR :=
  (C10_pid_lookup_ignores_state 0).2.2 exPidZeroState (by decide)
    ⟨0, by decide, by decide⟩ (by decide)

end OS
